import Mathlib

/-!
# Verification of the only-notes-server authentication and note-access core

Shallow embedding of the Rust sources under `src/` (the current, module-split
variant of the service: `handler.rs`, `route.rs`, `model.rs`, `request.rs`,
`response.rs`, `config.rs`).  `src/main.rs` in the snapshot is the earlier
stand-alone variant of the server (it declares no modules, so it does not
compile the files above into its crate); the spec refers to it only as the
"simplest reference variant" whose client-trusted `author` field was removed.

Modelling conventions:
- SQL timestamps (`DateTime<Utc>`) are embedded as `Int` (seconds since epoch);
  nullable columns as `Option Int`.
- The Postgres store is a pair of row lists (`Db`); each `sqlx::query_as!`
  call site is embedded as an explicit pure function on `Db`.  Store-generated
  values (serial ids, column defaults) enter as explicit parameters.
- The Argon2 PHC hash string stored in `users.password` is represented by its
  parse (`StoredPassword`): a well-formed string is `phc salt digest`, anything
  `PasswordHash::new` fails on is `malformed`.  The Argon2 key-derivation
  function itself lives in the external `argon2` crate, so it is kept abstract
  as a parameter `derive : String → String → String` (password, salt ↦ digest).
- A JWT is represented by its decoded form (`Jwt` = claims plus signature);
  the keyed signature function of the `jsonwebtoken` crate is kept abstract as
  a parameter `mac : String → TokenClaims → String` (secret, payload ↦ tag).
- Panics (`Option::unwrap`) are embedded as `Option`, `Result` as `Except`.
-/

namespace OnlyNotes

/-! ## Rust `str::to_ascii_lowercase`

`handler.rs` normalizes the submitted email with `to_ascii_lowercase`:
ASCII `A`-`Z` map to `a`-`z`, every other character is unchanged. -/

def asciiLowerChar (c : Char) : Char :=
  if 'A' ≤ c && c ≤ 'Z' then Char.ofNat (c.toNat + 32) else c

def asciiLowercase (s : String) : String := ⟨s.data.map asciiLowerChar⟩

/-! ## `src/model.rs` -/

/-- The stored `users.password` text column, represented by its PHC parse. -/
inductive StoredPassword where
  | phc (salt : String) (digest : String)
  | malformed (raw : String)
deriving DecidableEq

/-- `model.rs` `User` (row of the `users` table). -/
structure User where
  id : Int
  email : String
  password : StoredPassword
  date : Option Int
deriving DecidableEq

/-- `model.rs` `Note` (row of the `notes` table). -/
structure Note where
  id : Int
  author : Int
  content : String
  tags : List String
  date : Option Int
deriving DecidableEq

/-! ## `src/request.rs` -/

/-- `request.rs` `GetNotes`.  The Rust field is named `from`; `from` is a Lean
keyword, so the field is called `fromDate` here. -/
structure GetNotes where
  fromDate : Option Int
deriving DecidableEq

/-- `request.rs` `PostNote`: the create-note body carries only content and
tags — it has no owner/author field. -/
structure PostNote where
  content : String
  tags : List String
deriving DecidableEq

/-- `request.rs` `LoginUser`. -/
structure LoginUser where
  email : String
  password : String
deriving DecidableEq

/-! ## `src/response.rs` -/

structure FilteredNote where
  content : String
  tags : List String
  date : Int
deriving DecidableEq

/-- `response.rs` `impl From<&Note> for FilteredNote`.  The Rust code calls
`note.date.unwrap()`, which panics when `date` is `None`; the panic is
embedded as `none`. -/
def FilteredNote.fromNote (note : Note) : Option FilteredNote :=
  match note.date with
  | some d => some { content := note.content, tags := note.tags, date := d }
  | none => none

structure NotesResponse where
  author : String
  notes : List FilteredNote
deriving DecidableEq

/-! ## Argon2 credential hashing (call sites in `src/handler.rs`)

The key-derivation function of the `argon2` crate is abstract (`derive`);
the salt drawn from `OsRng` per `hash_password` call is an explicit
parameter. -/

/-- `Argon2::default().hash_password(password, &salt).to_string()`:
the PHC output string embeds the salt and the derived digest. -/
def Argon2.hash_password (derive : String → String → String)
    (password salt : String) : StoredPassword :=
  .phc salt (derive password salt)

/-- The verification in `login_user_handler` (`handler.rs` lines 40-45):
`PasswordHash::new` parse failure yields `false`; otherwise the digest is
recomputed under the stored salt and compared. -/
def Argon2.verify_password (derive : String → String → String)
    (password : String) (stored : StoredPassword) : Bool :=
  match stored with
  | .phc salt digest => derive password salt == digest
  | .malformed _ => false

/-! ## Session token codec -/

/-- `jwt_auth.rs` `TokenClaims` (used by `handler.rs`): `sub` is the user id,
`exp`/`iat` are Unix timestamps. -/
structure TokenClaims where
  sub : Int
  email : String
  exp : Int
  iat : Int
deriving DecidableEq

/-- A JWT represented by its decoded payload plus its signature tag. -/
structure Jwt where
  claims : TokenClaims
  sig : String
deriving DecidableEq

/-- `jsonwebtoken::encode(&Header::default(), &claims, secret)` as called in
`login_user_handler`: sign the serialized claims with the keyed `mac`. -/
def jwtEncode (mac : String → TokenClaims → String)
    (secret : String) (claims : TokenClaims) : Jwt :=
  { claims := claims, sig := mac secret claims }

inductive AuthError where
  | badSignature
  | expired
deriving DecidableEq

/-- Modelled from the spec: the token-verification side lives in
`src/jwt_auth.rs`, which `route.rs` and `handler.rs` import but which is not
present under `src/`.  Spec section 4.2: recompute the signature over the
decoded payload and reject on mismatch (`BAD_SIGNATURE`); reject if
`now >= expiresAt` (`EXPIRED`); otherwise return the claims unchanged. -/
def jwtVerify (mac : String → TokenClaims → String)
    (token : Jwt) (secret : String) (now : Int) : Except AuthError TokenClaims :=
  if mac secret token.claims ≠ token.sig then .error .badSignature
  else if token.claims.exp ≤ now then .error .expired
  else .ok token.claims

/-! ## The store (`sqlx` call sites) -/

/-- The Postgres database visible to this core: the `users` and `notes`
tables, in insertion order. -/
structure Db where
  users : List User
  notes : List Note
deriving DecidableEq

/-- `SELECT * FROM users WHERE email = $1` with `fetch_optional`. -/
def findUserByEmail (db : Db) (email : String) : Option User :=
  db.users.find? (fun u => u.email == email)

/-- `INSERT INTO users (email,password) VALUES ($1, $2) RETURNING *`:
the store generates `id` and the `date` column default. -/
def insertUser (db : Db) (email : String) (password : StoredPassword)
    (newId : Int) (newDate : Option Int) : User × Db :=
  let u : User := { id := newId, email := email, password := password, date := newDate }
  (u, { db with users := db.users ++ [u] })

/-- SQL `date > $2` on a nullable column: `NULL > x` is not true. -/
def sqlDateGt (date : Option Int) (lower : Int) : Bool :=
  match date with
  | some d => lower < d
  | none => false

/-! ## `src/handler.rs` -/

structure ErrResponse where
  status : Nat
  message : String
deriving DecidableEq

/-- The `Set-Cookie` built with `Cookie::build` in `handler.rs`.  `value` is
the JWT carried by the cookie (`none` models the empty string used by
logout). -/
structure SetCookie where
  name : String
  value : Option Jwt
  path : String
  maxAgeSecs : Int
  sameSiteLax : Bool
  httpOnly : Bool
deriving DecidableEq

/-- `chrono::Duration::weeks(4)` / `time::Duration::weeks(4)` in seconds. -/
def fourWeeksSecs : Int := 4 * 7 * 24 * 60 * 60

/-- Successful login response: the claims that were signed, the raw token
returned as the response body (`Response::new(token)`), and the
`SET_COOKIE` header. -/
structure LoginOk where
  claims : TokenClaims
  respBody : Jwt
  cookie : SetCookie
deriving DecidableEq

/-- `handler.rs` lines 87-115: build `TokenClaims` from `user` and `now`
(`iat = now.timestamp()`, `exp = (now + 4 weeks).timestamp()`), encode the
token, and attach it both as the response body and as the `token` cookie
(path `/`, max-age 4 weeks, SameSite=Lax, HttpOnly). -/
def issueTokenResponse (mac : String → TokenClaims → String)
    (secret : String) (user : User) (now : Int) : LoginOk :=
  let iat := now
  let exp := now + fourWeeksSecs
  let claims : TokenClaims := { sub := user.id, email := user.email, exp := exp, iat := iat }
  let token := jwtEncode mac secret claims
  { claims := claims
    respBody := token
    cookie := { name := "token", value := some token, path := "/",
                maxAgeSecs := fourWeeksSecs, sameSiteLax := true, httpOnly := true } }

/-- `handler.rs` `login_user_handler`.  Explicit parameters stand for the
effects: `now` for `chrono::Utc::now()`, `salt` for the fresh
`SaltString::generate(&mut OsRng)`, `newId`/`newDate` for the store-generated
columns of the `INSERT .. RETURNING *`.  Returns the handler result together
with the database after the request. -/
def login_user_handler (derive : String → String → String)
    (mac : String → TokenClaims → String) (secret : String)
    (db : Db) (body : LoginUser) (now : Int) (salt : String)
    (newId : Int) (newDate : Option Int) :
    Except ErrResponse LoginOk × Db :=
  match findUserByEmail db (asciiLowercase body.email) with
  | some user =>
    if Argon2.verify_password derive body.password user.password then
      (.ok (issueTokenResponse mac secret user now), db)
    else
      (.error { status := 400, message := "Invalid email or password" }, db)
  | none =>
    let hashed := Argon2.hash_password derive body.password salt
    let ins := insertUser db (asciiLowercase body.email) hashed newId newDate
    (.ok (issueTokenResponse mac secret ins.1 now), ins.2)

/-- `handler.rs` `logout_handler`: same cookie name, empty value, max-age
`hours(-1)`. -/
def logout_handler : SetCookie :=
  { name := "token", value := none, path := "/",
    maxAgeSecs := -3600, sameSiteLax := true, httpOnly := true }

/-- `handler.rs` `get_notes_handler`.  The SQL is embedded verbatim:
`SELECT * FROM notes WHERE id = $1 [and date > $2]` with `$1 = token.sub` —
note that the `WHERE` clause compares the *note id* column with the caller's
subject.  The `FilteredNote::from` panic on a NULL date is the `none`
result. -/
def get_notes_handler (db : Db) (token : TokenClaims) (pagination : GetNotes) :
    Option NotesResponse :=
  let notes : List Note :=
    match pagination.fromDate with
    | some lower => db.notes.filter (fun n => n.id == token.sub && sqlDateGt n.date lower)
    | none => db.notes.filter (fun n => n.id == token.sub)
  (notes.mapM FilteredNote.fromNote).map
    (fun fns => { author := token.email, notes := fns })

/-- `handler.rs` `post_note_handler`:
`INSERT INTO notes (author,content,tags) VALUES ($1, $2, $3) RETURNING *`
with `$1 = token.sub`; the store generates `newId` and the `date` default.
The response is `FilteredNote::from(&new_note)` (panics on NULL date). -/
def post_note_handler (db : Db) (token : TokenClaims) (body : PostNote)
    (newId : Int) (newDate : Option Int) : Option (FilteredNote × Db) :=
  let new_note : Note := { id := newId, author := token.sub,
                           content := body.content, tags := body.tags, date := newDate }
  let db2 : Db := { db with notes := db.notes ++ [new_note] }
  (FilteredNote.fromNote new_note).map (fun fn => (fn, db2))

/-! ## Auth gate and router -/

/-- The token-bearing parts of an incoming request: the `token` cookie and
the `Authorization: Bearer` header, each as its decoded JWT when present. -/
structure AuthRequest where
  cookieToken : Option Jwt
  headerBearer : Option Jwt
deriving DecidableEq

inductive GateResult where
  | rejected (status : Nat) (message : String)
  | allowed (claims : TokenClaims)
deriving DecidableEq

/-- Modelled from the spec: the `auth` middleware of `src/jwt_auth.rs` is
registered by `route.rs` but its file is not present under `src/`.  Spec
section 4.3: take the token from the named cookie first, the bearer header as
fallback; absence of both is `REJECTED(401, "missing token")` (no store call
is made — the gate takes no store argument); any verification failure is
`REJECTED(401, "invalid or expired token")`; on success the claims are
attached and the request proceeds. -/
def auth (mac : String → TokenClaims → String) (secret : String) (now : Int)
    (req : AuthRequest) : GateResult :=
  match req.cookieToken.orElse (fun _ => req.headerBearer) with
  | none => .rejected 401 "missing token"
  | some t =>
    match jwtVerify mac t secret now with
    | .error _ => .rejected 401 "invalid or expired token"
    | .ok claims => .allowed claims

inductive HttpMethod where
  | get
  | post
deriving DecidableEq

/-- One registered route; `authLayered` records whether `route.rs` wraps the
handler in `middleware::from_fn_with_state(app_state, auth)`. -/
structure Route where
  path : String
  method : HttpMethod
  authLayered : Bool
deriving DecidableEq

/-- `route.rs` `create_router`: login is the only route without the auth
layer; logout, note list and note create all carry it. -/
def create_router : List Route :=
  [ { path := "/api/auth/login", method := .post, authLayered := false },
    { path := "/api/auth/logout", method := .get, authLayered := true },
    { path := "/api/notes", method := .get, authLayered := true },
    { path := "/api/notes", method := .post, authLayered := true } ]

/-! ## Concrete instantiations used by the witnesses

`kdfDemo` is one concrete key-derivation function and `macDemo` one concrete
signing function, used only to evaluate the parametric theorems on closed
inputs. -/

def kdfDemo : String → String → String := fun p s => p ++ s

def macDemo : String → TokenClaims → String := fun _ _ => "sig"

def demoClaims : TokenClaims := { sub := 7, email := "a@x.com", exp := 2419300, iat := 100 }

def demoJwt : Jwt := { claims := demoClaims, sig := "sig" }

def demoLoginOk : LoginOk :=
  { claims := demoClaims
    respBody := demoJwt
    cookie := { name := "token", value := some demoJwt, path := "/",
                maxAgeSecs := fourWeeksSecs, sameSiteLax := true, httpOnly := true } }

/-! ## Supporting lemmas -/

theorem toNat_ofNat_add32 (c : Char) (h2 : c ≤ 'Z') :
    (Char.ofNat (c.toNat + 32)).toNat = c.toNat + 32 := by
  have hv : (c.toNat + 32).isValidChar := by
    left
    have : c.toNat ≤ 90 := h2
    omega
  simp only [Char.ofNat, hv, dif_pos]
  simp only [Char.ofNatAux, Char.toNat]
  simp [UInt32.toNat, UInt32.ofNatCore]

theorem asciiLowerChar_idem (c : Char) :
    asciiLowerChar (asciiLowerChar c) = asciiLowerChar c := by
  unfold asciiLowerChar
  split
  · next h =>
    simp only [Bool.and_eq_true, decide_eq_true_eq] at h
    obtain ⟨h1, h2⟩ := h
    have htn : (Char.ofNat (c.toNat + 32)).toNat = c.toNat + 32 := toNat_ofNat_add32 c h2
    have hnle : ¬(Char.ofNat (c.toNat + 32) ≤ 'Z') := by
      intro hle
      have hle90 : (Char.ofNat (c.toNat + 32)).toNat ≤ 90 := hle
      have hge : 65 ≤ c.toNat := h1
      omega
    simp [hnle]
  · rfl

theorem asciiLowercase_idem (s : String) :
    asciiLowercase (asciiLowercase s) = asciiLowercase s := by
  simp [asciiLowercase, List.map_map, Function.comp_def, asciiLowerChar_idem]

/-! ## Claims -/

/-- C1: the claim says `GET /notes` returns exactly the notes whose `author`
column equals `identity.subject`.  The code does not: the SQL in
`get_notes_handler` is `SELECT * FROM notes WHERE id = $1` with
`$1 = token.sub`, comparing the *note id* with the subject.  On a store
holding note 1 owned by user 2 and note 5 owned by user 1, the request of
user 1 returns user 2's note and omits user 1's own note. -/
theorem c1_notes_listing_filters_by_note_id_not_author :
    get_notes_handler
        ⟨[], [⟨1, 2, "user2 secret", [], some 10⟩, ⟨5, 1, "user1 own", [], some 20⟩]⟩
        ⟨1, "a@x.com", 2419300, 100⟩ ⟨none⟩ =
      some ⟨"a@x.com", [⟨"user2 secret", [], 10⟩]⟩ := rfl

/-- C2: the owner stored by note-create is `token.sub` from the verified
claims, for every request body — `PostNote` (from `request.rs`) carries no
owner/author field, so the inserted row is independent of any client-supplied
author; and the note-list result depends on the request only through the
`from` filter (`GetNotes` has no author field either). -/
theorem c2_note_owner_from_verified_claims_only
    (db : Db) (token : TokenClaims) (body : PostNote) (newId : Int) (newDate : Option Int)
    (fn : FilteredNote) (db2 : Db) (p : GetNotes)
    (h : post_note_handler db token body newId newDate = some (fn, db2)) :
    db2.notes = db.notes ++
      [{ id := newId, author := token.sub, content := body.content,
         tags := body.tags, date := newDate }] ∧
    get_notes_handler db token p = get_notes_handler db token ⟨p.fromDate⟩ := by
  constructor
  · cases hd : newDate with
    | none => simp [post_note_handler, FilteredNote.fromNote, hd] at h
    | some d =>
      simp [post_note_handler, FilteredNote.fromNote, hd] at h
      rw [← h.2]
  · rfl

/-- Witness for C2 at a concrete creation. -/
theorem c2_witness :
    (⟨[], [⟨9, 1, "hi", ["x"], some 42⟩]⟩ : Db).notes =
      [⟨9, 1, "hi", ["x"], some 42⟩] ∧
    get_notes_handler ⟨[], []⟩ ⟨1, "e", 0, 0⟩ ⟨none⟩ =
      get_notes_handler ⟨[], []⟩ ⟨1, "e", 0, 0⟩ ⟨none⟩ :=
  c2_note_owner_from_verified_claims_only ⟨[], []⟩ ⟨1, "e", 0, 0⟩ ⟨"hi", ["x"]⟩ 9 (some 42)
    ⟨"hi", ["x"], 42⟩ ⟨[], [⟨9, 1, "hi", ["x"], some 42⟩]⟩ ⟨none⟩ rfl

/-- C3: in `create_router` the auth middleware is layered on exactly the
routes other than `/api/auth/login` (logout, note list, note create), and the
gate on a request carrying neither a cookie token nor a bearer token
terminates in `REJECTED(401, "missing token")` — the gate takes no store
argument, so no store call is involved in that rejection. -/
theorem c3_protected_routes_gate_and_missing_token
    (mac : String → TokenClaims → String) (secret : String) (now : Int) :
    create_router.all
      (fun r => r.authLayered == !(r.path == "/api/auth/login")) = true ∧
    auth mac secret now ⟨none, none⟩ = .rejected 401 "missing token" :=
  ⟨rfl, rfl⟩

/-- C4: verifying a password against its own fresh hash succeeds, and
verifying a different password fails whenever the two passwords do not
collide under the derivation function for that salt (the spec's "with
overwhelming probability" caveat, made explicit as the hypothesis). -/
theorem c4_verify_hash_roundtrip (derive : String → String → String)
    (p p1 p2 salt : String) (h : derive p1 salt ≠ derive p2 salt) :
    Argon2.verify_password derive p (Argon2.hash_password derive p salt) = true ∧
    Argon2.verify_password derive p1 (Argon2.hash_password derive p2 salt) = false := by
  constructor
  · simp [Argon2.verify_password, Argon2.hash_password]
  · simp only [Argon2.verify_password, Argon2.hash_password, beq_eq_false_iff_ne, ne_eq]
    exact h

/-- Witness for C4 with a concrete derivation function and passwords. -/
theorem c4_witness :
    kdfDemo "p1" "s" ≠ kdfDemo "p2" "s" ∧
    (Argon2.verify_password kdfDemo "p1" (Argon2.hash_password kdfDemo "p1" "s") = true ∧
     Argon2.verify_password kdfDemo "p1" (Argon2.hash_password kdfDemo "p2" "s") = false) :=
  ⟨by decide, c4_verify_hash_roundtrip kdfDemo "p1" "p1" "p2" "s" (by decide)⟩

/-- C5: the hash output embeds the salt, so two calls drawing distinct fresh
salts (the per-call `SaltString::generate(&mut OsRng)`) produce distinct
outputs for the same password. -/
theorem c5_fresh_salt_distinct_hashes (derive : String → String → String)
    (p salt1 salt2 : String) (h : salt1 ≠ salt2) :
    Argon2.hash_password derive p salt1 ≠ Argon2.hash_password derive p salt2 := by
  intro hc
  simp only [Argon2.hash_password, StoredPassword.phc.injEq] at hc
  exact h hc.1

/-- Witness for C5 at concrete distinct salts. -/
theorem c5_witness :
    "s1" ≠ "s2" ∧
    Argon2.hash_password kdfDemo "p" "s1" ≠ Argon2.hash_password kdfDemo "p" "s2" :=
  ⟨by decide, c5_fresh_salt_distinct_hashes kdfDemo "p" "s1" "s2" (by decide)⟩

/-- C6: verifying a token issued with the same secret succeeds and returns
exactly the signed claims, provided `now < claims.exp` at verification
time. -/
theorem c6_token_issue_verify_roundtrip (mac : String → TokenClaims → String)
    (secret : String) (claims : TokenClaims) (now : Int) (h : now < claims.exp) :
    jwtVerify mac (jwtEncode mac secret claims) secret now = .ok claims := by
  simp only [jwtVerify, jwtEncode, ne_eq, not_true_eq_false, if_false]
  rw [if_neg]
  omega

/-- Witness for C6 at concrete claims and time. -/
theorem c6_witness :
    (0 : Int) < 100 ∧
    jwtVerify macDemo (jwtEncode macDemo "sec" ⟨1, "a@x.com", 100, 0⟩) "sec" 0 =
      .ok ⟨1, "a@x.com", 100, 0⟩ :=
  ⟨by decide, c6_token_issue_verify_roundtrip macDemo "sec" ⟨1, "a@x.com", 100, 0⟩ 0 (by decide)⟩

/-- C7: every successful login issues claims with `iat = now`,
`exp = iat + 4 weeks` and `sub` equal to the id of the matched (or newly
created) user, returns the raw token as the response body, and sets the same
token as the `token` cookie on path `/` with max-age equal to the 4-week
lifetime, SameSite=Lax and HttpOnly. -/
theorem c7_login_claims_cookie_body (derive : String → String → String)
    (mac : String → TokenClaims → String) (secret : String)
    (db : Db) (body : LoginUser) (now : Int) (salt : String)
    (newId : Int) (newDate : Option Int) (r : LoginOk) (db2 : Db)
    (h : login_user_handler derive mac secret db body now salt newId newDate = (.ok r, db2)) :
    r.claims.iat = now ∧
    r.claims.exp = r.claims.iat + fourWeeksSecs ∧
    (match findUserByEmail db (asciiLowercase body.email) with
     | some u => r.claims.sub = u.id
     | none => r.claims.sub = newId) ∧
    r.respBody = jwtEncode mac secret r.claims ∧
    r.cookie = { name := "token", value := some r.respBody, path := "/",
                 maxAgeSecs := fourWeeksSecs, sameSiteLax := true, httpOnly := true } := by
  cases hf : findUserByEmail db (asciiLowercase body.email) with
  | some u =>
    simp only [login_user_handler, hf] at h
    by_cases hv : Argon2.verify_password derive body.password u.password
    · simp only [hv, if_true, Prod.mk.injEq, Except.ok.injEq] at h
      rw [← h.1]
      simp [issueTokenResponse, jwtEncode, hf]
    · simp [hv] at h
  | none =>
    simp only [login_user_handler, hf, insertUser, Prod.mk.injEq, Except.ok.injEq] at h
    rw [← h.1]
    simp [issueTokenResponse, jwtEncode, hf]

/-- Witness for C7: the registration-on-first-login path on an empty store. -/
theorem c7_witness :
    demoLoginOk.claims.iat = 100 ∧
    demoLoginOk.claims.exp = demoLoginOk.claims.iat + fourWeeksSecs ∧
    demoLoginOk.claims.sub = 7 ∧
    demoLoginOk.respBody = jwtEncode macDemo "sec" demoLoginOk.claims ∧
    demoLoginOk.cookie = { name := "token", value := some demoLoginOk.respBody, path := "/",
                           maxAgeSecs := fourWeeksSecs, sameSiteLax := true, httpOnly := true } :=
  c7_login_claims_cookie_body kdfDemo macDemo "sec" ⟨[], []⟩ ⟨"A@X.com", "pw"⟩ 100 "s" 7 none
    demoLoginOk ⟨[⟨7, "a@x.com", .phc "s" "pws", none⟩], []⟩ rfl

/-- C8: a login whose normalized email matches a stored user but whose
password fails verification returns exactly the 400 "Invalid email or
password" rejection, with the store unchanged (no row created, no record
mutated) and no token issued (the error branch carries none). -/
theorem c8_wrong_password_rejected_no_write (derive : String → String → String)
    (mac : String → TokenClaims → String) (secret : String)
    (db : Db) (body : LoginUser) (now : Int) (salt : String)
    (newId : Int) (newDate : Option Int) (u : User)
    (hfind : findUserByEmail db (asciiLowercase body.email) = some u)
    (hbad : Argon2.verify_password derive body.password u.password = false) :
    login_user_handler derive mac secret db body now salt newId newDate =
      (.error { status := 400, message := "Invalid email or password" }, db) := by
  simp [login_user_handler, hfind, hbad]

/-- Witness for C8: an existing user, a wrong password. -/
theorem c8_witness :
    findUserByEmail ⟨[⟨1, "a@x.com", .phc "s" "pw1s", none⟩], []⟩
        (asciiLowercase "a@x.com") = some ⟨1, "a@x.com", .phc "s" "pw1s", none⟩ ∧
    Argon2.verify_password kdfDemo "wrongpw" (.phc "s" "pw1s") = false ∧
    login_user_handler kdfDemo macDemo "sec" ⟨[⟨1, "a@x.com", .phc "s" "pw1s", none⟩], []⟩
        ⟨"a@x.com", "wrongpw"⟩ 100 "s2" 7 none =
      (.error { status := 400, message := "Invalid email or password" },
       ⟨[⟨1, "a@x.com", .phc "s" "pw1s", none⟩], []⟩) :=
  ⟨rfl, by decide,
   c8_wrong_password_rejected_no_write kdfDemo macDemo "sec"
     ⟨[⟨1, "a@x.com", .phc "s" "pw1s", none⟩], []⟩ ⟨"a@x.com", "wrongpw"⟩ 100 "s2" 7 none
     ⟨1, "a@x.com", .phc "s" "pw1s", none⟩ rfl (by decide)⟩

/-- C9: the login flow lowercases the email before both uses: the store
lookup key is `asciiLowercase body.email`, the user created on the
registration path stores `asciiLowercase body.email`, and consequently
submitting the already-lowercased email behaves identically to submitting the
original (ASCII-lowercase is idempotent). -/
theorem c9_email_lowercased_lookup_and_insert (derive : String → String → String)
    (mac : String → TokenClaims → String) (secret : String)
    (db : Db) (body : LoginUser) (now : Int) (salt : String)
    (newId : Int) (newDate : Option Int)
    (h : findUserByEmail db (asciiLowercase body.email) = none) :
    (login_user_handler derive mac secret db body now salt newId newDate).2.users =
      db.users ++ [{ id := newId, email := asciiLowercase body.email,
                     password := Argon2.hash_password derive body.password salt,
                     date := newDate }] ∧
    login_user_handler derive mac secret db ⟨asciiLowercase body.email, body.password⟩
        now salt newId newDate =
      login_user_handler derive mac secret db body now salt newId newDate := by
  constructor
  · simp [login_user_handler, h, insertUser]
  · simp only [login_user_handler, asciiLowercase_idem]

/-- Witness for C9: a mixed-case email on an empty store. -/
theorem c9_witness :
    (login_user_handler kdfDemo macDemo "sec" ⟨[], []⟩ ⟨"A@X.com", "pw"⟩
        100 "s" 7 none).2.users =
      [{ id := 7, email := asciiLowercase "A@X.com",
         password := Argon2.hash_password kdfDemo "pw" "s", date := none }] ∧
    login_user_handler kdfDemo macDemo "sec" ⟨[], []⟩ ⟨asciiLowercase "A@X.com", "pw"⟩
        100 "s" 7 none =
      login_user_handler kdfDemo macDemo "sec" ⟨[], []⟩ ⟨"A@X.com", "pw"⟩ 100 "s" 7 none :=
  c9_email_lowercased_lookup_and_insert kdfDemo macDemo "sec" ⟨[], []⟩ ⟨"A@X.com", "pw"⟩
    100 "s" 7 none rfl

/-- C10: `FilteredNote::from` is the date-unwrapping partial conversion: it
succeeds exactly on notes whose `date` is present (returning the unwrapped
value), note-create with a NULL stored date panics while building its
response, and so does note-list when a selected row has a NULL date. -/
theorem c10_filtered_note_requires_date (n : Note) (db : Db) (token : TokenClaims)
    (body : PostNote) (newId : Int) :
    FilteredNote.fromNote n =
      n.date.map (fun d => { content := n.content, tags := n.tags, date := d }) ∧
    (FilteredNote.fromNote n).isSome = n.date.isSome ∧
    post_note_handler db token body newId none = none ∧
    get_notes_handler ⟨[], [⟨1, 1, "x", [], none⟩]⟩ ⟨1, "e", 0, 0⟩ ⟨none⟩ = none := by
  refine ⟨?_, ?_, rfl, rfl⟩
  · cases hd : n.date <;> simp [FilteredNote.fromNote, hd]
  · cases hd : n.date <;> simp [FilteredNote.fromNote, hd]

end OnlyNotes
